import Mathlib

/-!
Shallow embedding of the authentication subsystem of the AniGharTEMPServer
backend: the auth routes (register, login, logout, refresh-token), the
request-authentication middleware (protect) and the token-bearing parts of
the User model.

Modelling conventions:
* A signed JWT is modelled as its payload (id claim, optional role claim,
  iat, exp in seconds) together with the secret it was signed with; a string
  that is not a well-formed token is the separate constructor garbage, and
  the empty string (which is falsy in JavaScript) is the constructor empty.
* MongoDB is modelled as a list of user records; query setters of the
  mongoose schema (lowercase, trim on the email path) are applied both when
  storing and when filtering, as mongoose does.
* bcrypt is modelled as an injective salted hash: the hash value keeps the
  plaintext and the salt abstractly, and comparePassword checks the
  underlying plaintext, which is exactly the correctness contract of bcrypt.
* Express responses are records of status, JSON body, set cookies and
  cleared cookies; JSON fields that a handler does not emit are none.
* process.env configuration (the two JWT secrets and NODE_ENV) is a record
  passed explicitly; the spec treats a missing secret as a fatal startup
  error, so the model assumes both secrets are present.
-/

namespace AniGhar

/-- Configuration read from process.env at startup. -/
structure Config where
  jwtSecret : String
  refreshTokenSecret : String
  isProduction : Bool
deriving DecidableEq, Repr

/-- A signed JWT, modelled as payload plus signing secret.  The access token
payload is { id, role }, the refresh token payload is { id } (role = none);
iat and exp are in seconds. -/
structure Token where
  id : Nat
  role : Option String
  iat : Nat
  exp : Nat
  secret : String
deriving DecidableEq, Repr

/-- The value of a cookie in the request: the empty string (falsy in
JavaScript), a well-formed signed token, or any other malformed string. -/
inductive CookieVal where
  | empty : CookieVal
  | tok : Token → CookieVal
  | garbage : String → CookieVal
deriving DecidableEq, Repr

/-- JavaScript truthiness of an optional cookie value: undefined and the
empty string are falsy. -/
def truthy : Option CookieVal → Bool
  | none => false
  | some .empty => false
  | some _ => true

/-- JavaScript a || b over cookie values. -/
def jsOr (a b : Option CookieVal) : Option CookieVal :=
  if truthy a then a else b

/-- Outcome of jwt.verify: success with the decoded payload, a
TokenExpiredError, or any other JsonWebTokenError. -/
inductive VerifyResult where
  | ok : Token → VerifyResult
  | expired : VerifyResult
  | invalid : VerifyResult
deriving DecidableEq, Repr

/-- jwt.verify(value, secret) at clock time now (seconds): the signature is
checked first (wrong secret or malformed input is invalid), then the exp
claim (expired once now has reached exp). -/
def jwtVerify (v : CookieVal) (secret : String) (now : Nat) : VerifyResult :=
  match v with
  | .tok t =>
    if t.secret ≠ secret then .invalid
    else if t.exp ≤ now then .expired
    else .ok t
  | _ => .invalid

/-- A bcrypt hash, modelled abstractly as the hashed plaintext and the salt;
bcrypt.hash is injective on the plaintext for verification purposes. -/
structure PwHash where
  plain : String
  salt : Nat
deriving DecidableEq, Repr

/-- bcrypt.hash(plain, salt), run by the pre-save hook of the user schema. -/
def bcryptHash (plain : String) (salt : Nat) : PwHash := ⟨plain, salt⟩

/-- userSchema.methods.comparePassword via bcrypt.compare. -/
def comparePassword (candidate : String) (h : PwHash) : Bool :=
  candidate == h.plain

/-- String.trim, written over the character list so that it reduces inside
the kernel. -/
def strTrim (s : String) : String :=
  ⟨((s.data.dropWhile Char.isWhitespace).reverse.dropWhile Char.isWhitespace).reverse⟩

/-- String.toLowerCase, written over the character list so that it reduces
inside the kernel. -/
def strToLower (s : String) : String := ⟨s.data.map Char.toLower⟩

/-- The mongoose setters on the email path: trim then lowercase.  They are
applied on save and on query filters alike. -/
def normEmail (e : String) : String := strToLower (strTrim e)

/-- A persisted user document (the fields of userSchema that the
authentication core touches). -/
structure UserRec where
  id : Nat
  name : String
  email : String
  password : PwHash
  isEmailVerified : Bool
  isActive : Bool
  lastLogin : Option Nat
  role : String
  avatar : String
  phone : String
  refreshToken : Option CookieVal
deriving DecidableEq, Repr

/-- The user collection. -/
abbrev Store := List UserRec

/-- User.findOne({ email }) with the schema query setters applied. -/
def findByEmail (st : Store) (e : String) : Option UserRec :=
  st.find? (fun u => u.email == normEmail e)

/-- User.findById(id). -/
def findById (st : Store) (i : Nat) : Option UserRec :=
  st.find? (fun u => u.id == i)

/-- User.findOne({ _id: id, refreshToken: rt }) — the exact-match lookup of
the refresh route. -/
def findByIdAndToken (st : Store) (i : Nat) (rt : CookieVal) : Option UserRec :=
  st.find? (fun u => u.id == i && u.refreshToken == some rt)

/-- Persisting a change to the document with the given id. -/
def updateUser (st : Store) (i : Nat) (f : UserRec → UserRec) : Store :=
  st.map (fun u => if u.id == i then f u else u)

/-- Access token lifetime: expiresIn 15m, in seconds. -/
def accessTokenLifeS : Nat := 15 * 60

/-- Refresh token lifetime: expiresIn 7d, in seconds. -/
def refreshTokenLifeS : Nat := 7 * 24 * 60 * 60

/-- userSchema.methods.generateAuthTokens: the access token is signed with
JWT_SECRET and carries { id, role }; the refresh token is signed with
REFRESH_TOKEN_SECRET and carries { id } only. -/
def generateAuthTokens (cfg : Config) (u : UserRec) (now : Nat) : Token × Token :=
  ({ id := u.id, role := some u.role, iat := now,
     exp := now + accessTokenLifeS, secret := cfg.jwtSecret },
   { id := u.id, role := none, iat := now,
     exp := now + refreshTokenLifeS, secret := cfg.refreshTokenSecret })

/-- Options passed to res.cookie. -/
structure CookieOptions where
  httpOnly : Bool
  secure : Bool
  sameSite : String
  path : String
  maxAgeMs : Nat
deriving DecidableEq, Repr

/-- getCookieOptions from the auth route: 7 days for the refresh token
cookie (scoped to the refresh endpoint), 15 minutes for the access token
cookie; maxAge is in milliseconds. -/
def getCookieOptions (cfg : Config) (forRefreshToken : Bool) : CookieOptions :=
  { httpOnly := true
    secure := cfg.isProduction
    sameSite := if cfg.isProduction then "none" else "lax"
    path := if forRefreshToken then "/api/auth/refresh-token" else "/"
    maxAgeMs := if forRefreshToken then 7 * 24 * 60 * 60 * 1000 else 15 * 60 * 1000 }

/-- A cookie set on the response. -/
structure SetCookie where
  name : String
  value : CookieVal
  opts : CookieOptions
deriving DecidableEq, Repr

/-- A cookie cleared on the response (name and path). -/
structure ClearCookie where
  name : String
  path : String
deriving DecidableEq, Repr

/-- setTokenCookies: set accessToken and refreshToken, clear the legacy
cookie named token. -/
def setTokenCookies (cfg : Config) (access refresh : Token) :
    List SetCookie × List ClearCookie :=
  ([⟨"accessToken", .tok access, getCookieOptions cfg false⟩,
    ⟨"refreshToken", .tok refresh, getCookieOptions cfg true⟩],
   [⟨"token", "/"⟩])

/-- The sanitized user projection returned to clients: user.toObject() with
the password and refreshToken properties deleted.  The type itself has no
credential-hash or refresh-token field. -/
structure UserView where
  id : Nat
  name : String
  email : String
  isEmailVerified : Bool
  isActive : Bool
  lastLogin : Option Nat
  role : String
  avatar : String
  phone : String
deriving DecidableEq, Repr

/-- Build the sanitized projection of a user document. -/
def sanitizedUser (u : UserRec) : UserView :=
  { id := u.id, name := u.name, email := u.email,
    isEmailVerified := u.isEmailVerified, isActive := u.isActive,
    lastLogin := u.lastLogin, role := u.role, avatar := u.avatar,
    phone := u.phone }

/-- A JSON response body; fields a handler does not emit are none. -/
structure ResBody where
  success : Bool
  message : Option String
  errors : Option (List String)
  user : Option UserView
  accessToken : Option Token
  shouldLogout : Option Bool
  shouldRefresh : Option Bool
deriving DecidableEq, Repr

/-- A body with only success and message set. -/
def ResBody.base (s : Bool) (m : Option String) : ResBody :=
  { success := s, message := m, errors := none, user := none,
    accessToken := none, shouldLogout := none, shouldRefresh := none }

/-- An HTTP response: status code, JSON body, cookies set, cookies cleared. -/
structure Response where
  status : Nat
  body : ResBody
  setCookies : List SetCookie
  cleared : List ClearCookie
deriving DecidableEq, Repr

/-- res.status(s).json(b) with no cookie changes. -/
def Response.json (s : Nat) (b : ResBody) : Response :=
  { status := s, body := b, setCookies := [], cleared := [] }

/-- The three clearCookie calls shared by the logout handler and the catch
branch of the refresh handler. -/
def clearAuthCookies : List ClearCookie :=
  [⟨"accessToken", "/"⟩, ⟨"refreshToken", "/api/auth/refresh-token"⟩,
   ⟨"token", "/"⟩]

/-- The schema regex on the email path, /^\S+@\S+\.\S+$/: no whitespace, a
nonempty part before some at sign, a nonempty part between it and some later
dot, and a nonempty part after that dot.  The route-level isEmail validator
is modelled by the same predicate. -/
def isEmailFormat (e : String) : Bool :=
  let cs := e.data
  cs.all (fun c => !c.isWhitespace) &&
  cs.enum.any (fun pc =>
    pc.2 == '@' && 1 ≤ pc.1 &&
    cs.enum.any (fun qc =>
      qc.2 == '.' && pc.1 + 2 ≤ qc.1 && qc.1 + 2 ≤ cs.length))

/-- The body of a registration request. -/
structure RegisterReq where
  name : String
  email : String
  password : String
deriving DecidableEq, Repr

/-- express-validator checks of the register route: name trimmed nonempty,
email trimmed and well-formed, password at least 8 characters. -/
def registerErrors (r : RegisterReq) : List String :=
  (if strTrim r.name = "" then ["Name is required"] else []) ++
  (if isEmailFormat (strTrim r.email) then [] else ["Please include a valid email"]) ++
  (if 8 ≤ r.password.data.length then [] else ["Password must be at least 8 characters"])

/-- The duplicate-email failure of the register route. -/
def dupEmailResp : Response :=
  Response.json 400 (ResBody.base false (some "Email is already registered"))

/-- Outcome of a registration request: the response, the updated store, and
whether the password hash was computed (the pre-save hook runs only when a
document is saved). -/
structure RegisterOut where
  resp : Response
  store : Store
  hashedPassword : Bool
deriving DecidableEq, Repr

/-- The document built by new User({...}) plus the schema defaults, with the
password hashed by the pre-save hook and the validator-trimmed, schema-
normalized fields applied. -/
def newUserRec (r : RegisterReq) (newId salt : Nat) : UserRec :=
  { id := newId, name := strTrim r.name, email := normEmail r.email,
    password := bcryptHash r.password salt,
    isEmailVerified := false, isActive := true, lastLogin := none,
    role := "user", avatar := "", phone := "", refreshToken := none }

/-- The registered document after the refresh token issued at registration
time has been persisted onto it. -/
def registeredUser (cfg : Config) (r : RegisterReq) (newId salt now : Nat) :
    UserRec :=
  { newUserRec r newId salt with
    refreshToken := some (.tok (generateAuthTokens cfg (newUserRec r newId salt) now).2) }

/-- The success path of the register route, reached only after the
duplicate check: create the user (the pre-save hook hashes the password),
issue the token pair, persist the refresh token on the record, set the
token cookies and answer 201 with the sanitized user and the access
token. -/
def registerSuccess (cfg : Config) (st : Store) (r : RegisterReq)
    (newId salt now : Nat) : RegisterOut :=
  let u0 := newUserRec r newId salt
  let tks := generateAuthTokens cfg u0 now
  let u1 := { u0 with refreshToken := some (.tok tks.2) }
  let cookies := setTokenCookies cfg tks.1 tks.2
  { resp :=
      { status := 201,
        body :=
          { ResBody.base true
              (some "Registration successful. Please check your email to verify your account.") with
            user := some (sanitizedUser u1), accessToken := some tks.1 },
        setCookies := cookies.1, cleared := cookies.2 },
    store := st ++ [u1], hashedPassword := true }

/-- POST register: validate; reject an already-registered email before any
save (so before the hash is computed); otherwise run the success path.
newId is the ObjectId minted by the store, salt the bcrypt salt, now the
clock in seconds. -/
def register (cfg : Config) (st : Store) (r : RegisterReq)
    (newId salt now : Nat) : RegisterOut :=
  if registerErrors r ≠ [] then
    { resp := Response.json 400
        { ResBody.base false none with errors := some (registerErrors r) },
      store := st, hashedPassword := false }
  else
    match findByEmail st r.email with
    | some _ => { resp := dupEmailResp, store := st, hashedPassword := false }
    | none => registerSuccess cfg st r newId salt now

/-- The body of a login request. -/
structure LoginReq where
  email : String
  password : String
deriving DecidableEq, Repr

/-- express-validator checks of the login route: email well-formed; the
password existence check always passes since the field is present. -/
def loginErrors (r : LoginReq) : List String :=
  if isEmailFormat r.email then [] else ["Please include a valid email"]

/-- The merged invalid-credentials failure of the login route, identical for
an unknown email and for a wrong password. -/
def invalidCredResp : Response :=
  Response.json 401 (ResBody.base false (some "Invalid credentials"))

/-- The deactivated-account failure of the login route. -/
def deactivatedResp : Response :=
  Response.json 403
    (ResBody.base false (some "Account is deactivated. Please contact support."))

/-- The success path of the login route, reached only after the credential
and active checks: update lastLogin, issue a fresh token pair, overwrite the
stored refresh token, set cookies and answer 200 with the sanitized user and
the access token. -/
def loginSuccess (cfg : Config) (st : Store) (u : UserRec) (now : Nat) :
    Response × Store :=
  let u1 := { u with lastLogin := some now }
  let tks := generateAuthTokens cfg u1 now
  let u2 := { u1 with refreshToken := some (.tok tks.2) }
  let cookies := setTokenCookies cfg tks.1 tks.2
  ({ status := 200,
     body := { ResBody.base true (some "Login successful") with
               user := some (sanitizedUser u2), accessToken := some tks.1 },
     setCookies := cookies.1, cleared := cookies.2 },
   updateUser st u.id (fun _ => u2))

/-- The checks of the login route on the record found by email: the password
comparison first (its failure is the same merged error as an unknown email),
the active flag second. -/
def loginFound (cfg : Config) (st : Store) (u : UserRec) (password : String)
    (now : Nat) : Response × Store :=
  if !comparePassword password u.password then (invalidCredResp, st)
  else if !u.isActive then (deactivatedResp, st)
  else loginSuccess cfg st u now

/-- POST login: validate; look the user up by email; reject with the merged
invalid-credentials error when no record matches; otherwise run the
password, active-flag and success steps. -/
def login (cfg : Config) (st : Store) (r : LoginReq) (now : Nat) :
    Response × Store :=
  if loginErrors r ≠ [] then
    (Response.json 400 { ResBody.base false none with errors := some (loginErrors r) }, st)
  else
    match findByEmail st r.email with
    | none => (invalidCredResp, st)
    | some u => loginFound cfg st u r.password now

/-- POST logout: if a truthy refreshToken cookie is present, best-effort
clear the stored refresh token of the user it decodes to, swallowing any
decode error; then always clear all three cookies and answer 200. -/
def logoutRoute (cfg : Config) (st : Store) (cookie : Option CookieVal)
    (now : Nat) : Response × Store :=
  let st1 :=
    match cookie with
    | some (.tok t) =>
      match jwtVerify (.tok t) cfg.refreshTokenSecret now with
      | .ok d => updateUser st d.id (fun u => { u with refreshToken := none })
      | _ => st
    | some (.garbage _) => st
    | _ => st
  ({ status := 200, body := ResBody.base true (some "Logout successful"),
     setCookies := [], cleared := clearAuthCookies }, st1)

/-- The no-cookie failure of the refresh route. -/
def noRefreshTokenResp : Response :=
  Response.json 401
    { ResBody.base false (some "No refresh token provided") with shouldLogout := some true }

/-- The stale-token failure of the refresh route: the token verified but no
record holds it as its current refresh token. -/
def invalidRefreshResp : Response :=
  Response.json 403
    { ResBody.base false (some "Invalid refresh token") with shouldLogout := some true }

/-- The catch branch of the refresh route (signature or expiry failure of
jwt.verify): clear all cookies and answer 401. -/
def expiredRefreshResp : Response :=
  { status := 401,
    body := { ResBody.base false (some "Invalid or expired refresh token") with
              shouldLogout := some true },
    setCookies := [], cleared := clearAuthCookies }

/-- The success path of the refresh route, reached only on an exact match
of the presented and stored refresh tokens: issue a new pair, overwrite the
stored refresh token (completing the rotation), set cookies and answer 200
with the new access token only. -/
def refreshSuccess (cfg : Config) (st : Store) (u : UserRec) (now : Nat) :
    Response × Store :=
  let tks := generateAuthTokens cfg u now
  let u1 := { u with refreshToken := some (.tok tks.2) }
  let cookies := setTokenCookies cfg tks.1 tks.2
  ({ status := 200,
     body := { ResBody.base true none with accessToken := some tks.1 },
     setCookies := cookies.1, cleared := cookies.2 },
   updateUser st u.id (fun _ => u1))

/-- The refresh route after jwt.verify succeeded with payload d: look the
user up by the decoded id together with the presented token value; no match
is the 403 failure, a match runs the rotation. -/
def refreshDecoded (cfg : Config) (st : Store) (t d : Token) (now : Nat) :
    Response × Store :=
  match findByIdAndToken st d.id (.tok t) with
  | none => (invalidRefreshResp, st)
  | some u => refreshSuccess cfg st u now

/-- The refresh route on a well-formed presented token: jwt.verify with
REFRESH_TOKEN_SECRET; any verification error is caught as the 401
invalid-or-expired failure with cookies cleared. -/
def refreshVerified (cfg : Config) (st : Store) (t : Token) (now : Nat) :
    Response × Store :=
  match jwtVerify (.tok t) cfg.refreshTokenSecret now with
  | .ok d => refreshDecoded cfg st t d now
  | _ => (expiredRefreshResp, st)

/-- POST refresh-token: a falsy cookie gives the 401 no-token failure; a
malformed cookie makes jwt.verify throw, caught as the 401 invalid-or-expired
failure; a well-formed token goes through verification, the exact-match
lookup and rotation. -/
def refreshRoute (cfg : Config) (st : Store) (cookie : Option CookieVal)
    (now : Nat) : Response × Store :=
  match cookie with
  | some (.tok t) => refreshVerified cfg st t now
  | some (.garbage _) => (expiredRefreshResp, st)
  | _ => (noRefreshTokenResp, st)

/-- Outcome of the protect middleware: either the sanitized user is attached
to the request and the handler runs, or the request is rejected. -/
inductive ProtectResult where
  | next : UserView → ProtectResult
  | reject : Response → ProtectResult
deriving DecidableEq, Repr

/-- The no-token failure of protect. -/
def noAccessTokenResp : Response :=
  Response.json 401
    { ResBody.base false (some "No access token provided") with shouldRefresh := some true }

/-- The expired-token failure of protect: the client should refresh, not log
out. -/
def expiredAccessResp : Response :=
  Response.json 401
    { ResBody.base false (some "Access token expired") with
      shouldRefresh := some true, shouldLogout := some false }

/-- The invalid-token failure of protect (bad signature, malformed token, or
subject not resolving to a user): the client should log out, not refresh. -/
def invalidAccessResp : Response :=
  Response.json 401
    { ResBody.base false (some "Invalid access token") with
      shouldRefresh := some false, shouldLogout := some true }

/-- The protect middleware after jwt.verify succeeded with payload d: load
the user by the decoded id (projection without password and refreshToken)
and attach it; a missing record raises, caught in the non-expired branch. -/
def protectLoad (st : Store) (d : Token) : ProtectResult :=
  match findById st d.id with
  | some u => .next (sanitizedUser u)
  | none => .reject invalidAccessResp

/-- The protect middleware on a well-formed token: verify with JWT_SECRET,
mapping a TokenExpiredError to the expired failure and every other
verification error to the invalid failure. -/
def protectVerify (cfg : Config) (st : Store) (t : Token) (now : Nat) :
    ProtectResult :=
  match jwtVerify (.tok t) cfg.jwtSecret now with
  | .ok d => protectLoad st d
  | .expired => .reject expiredAccessResp
  | .invalid => .reject invalidAccessResp

/-- The protect middleware: take the accessToken cookie, falling back to the
legacy token cookie via JavaScript ||; a falsy result is the no-token
failure; a malformed string fails jwt.verify, giving the invalid failure;
a well-formed token goes through verification and user loading. -/
def protect (cfg : Config) (st : Store)
    (accessCookie legacyCookie : Option CookieVal) (now : Nat) : ProtectResult :=
  match jsOr accessCookie legacyCookie with
  | some (.tok t) => protectVerify cfg st t now
  | some (.garbage _) => .reject invalidAccessResp
  | _ => .reject noAccessTokenResp

/-! Concrete fixtures used by witnesses and counterexamples. -/

/-- Example configuration with distinct secrets, development mode. -/
def cfgEx : Config := ⟨"access-secret", "refresh-secret", false⟩

/-- The refresh token stored on the example user. -/
def storedRT : Token :=
  { id := 1, role := none, iat := 100, exp := 100 + refreshTokenLifeS,
    secret := "refresh-secret" }

/-- An example persisted user. -/
def userEx : UserRec :=
  { id := 1, name := "Alice", email := "alice@example.com",
    password := ⟨"password123", 0⟩, isEmailVerified := false, isActive := true,
    lastLogin := none, role := "user", avatar := "", phone := "",
    refreshToken := some (.tok storedRT) }

/-- An example store holding only the example user. -/
def stEx : Store := [userEx]

/-- A refresh token with a valid signature, not yet expired at time 200, but
different from the stored one, as after a later rotation. -/
def staleRT : Token :=
  { id := 1, role := none, iat := 50, exp := 50 + refreshTokenLifeS,
    secret := "refresh-secret" }

/-- A structurally well-formed refresh token signed with a wrong secret. -/
def badSigRT : Token := { storedRT with secret := "wrong-secret" }

/-- An access token for the example user, expiring at time 1000. -/
def accEx : Token :=
  { id := 1, role := some "user", iat := 100, exp := 1000,
    secret := "access-secret" }

/-- An example registration request. -/
def regEx : RegisterReq := ⟨"Alice", "Alice@Example.com", "password123"⟩

/-- A second registration request whose email differs from the first only in
case and surrounding whitespace. -/
def regEx2 : RegisterReq := ⟨"Bob", " ALICE@example.com", "password456"⟩

/-- An example login request matching the example user. -/
def loginEx : LoginReq := ⟨"alice@example.com", "password123"⟩

/-! Helper lemmas shared by the claim proofs. -/

/-- Reduction of an if whose condition is the coerced negation of false. -/
theorem if_not_false {α : Sort _} (a b : α) :
    (if (!false) = true then a else b) = a := rfl

/-- Reduction of an if whose condition is the coerced negation of true. -/
theorem if_not_true {α : Sort _} (a b : α) :
    (if (!true) = true then a else b) = b := rfl

/-- jwt.verify succeeds on a token signed with the right secret and not yet
expired, returning its payload. -/
theorem jwtVerify_ok (t : Token) (secret : String) (now : Nat)
    (hsec : t.secret = secret) (hexp : now < t.exp) :
    jwtVerify (.tok t) secret now = .ok t := by
  show (if t.secret ≠ secret then VerifyResult.invalid
        else if t.exp ≤ now then VerifyResult.expired
        else VerifyResult.ok t) = VerifyResult.ok t
  rw [if_neg (fun h => h hsec), if_neg (by omega)]

/-- jwt.verify fails as invalid on a wrong signature. -/
theorem jwtVerify_badsig (t : Token) (secret : String) (now : Nat)
    (hsec : t.secret ≠ secret) :
    jwtVerify (.tok t) secret now = .invalid := by
  show (if t.secret ≠ secret then VerifyResult.invalid
        else if t.exp ≤ now then VerifyResult.expired
        else VerifyResult.ok t) = VerifyResult.invalid
  rw [if_pos hsec]

/-- jwt.verify fails as expired on a correctly signed token whose expiry has
elapsed. -/
theorem jwtVerify_expired (t : Token) (secret : String) (now : Nat)
    (hsec : t.secret = secret) (hexp : t.exp ≤ now) :
    jwtVerify (.tok t) secret now = .expired := by
  show (if t.secret ≠ secret then VerifyResult.invalid
        else if t.exp ≤ now then VerifyResult.expired
        else VerifyResult.ok t) = VerifyResult.expired
  rw [if_neg (fun h => h hsec), if_pos hexp]

/-- Reduction of login once validation passed and the email lookup missed. -/
theorem login_notfound (cfg : Config) (st : Store) (r : LoginReq) (now : Nat)
    (hv : loginErrors r = []) (hfe : findByEmail st r.email = none) :
    login cfg st r now = (invalidCredResp, st) := by
  unfold login
  rw [if_neg (by simp [hv]), hfe]

/-- Reduction of login once validation passed and the email lookup hit. -/
theorem login_found_eq (cfg : Config) (st : Store) (r : LoginReq) (now : Nat)
    (u : UserRec) (hv : loginErrors r = [])
    (hfe : findByEmail st r.email = some u) :
    login cfg st r now = loginFound cfg st u r.password now := by
  unfold login
  rw [if_neg (by simp [hv]), hfe]

/-- The three login failure and success responses are pairwise different. -/
theorem invalidCred_ne_deactivated : invalidCredResp ≠ deactivatedResp := by
  decide

/-- Inversion of a successful jwt.verify on a well-formed token: the payload
is the token itself, the signature matched and the expiry had not elapsed. -/
theorem jwtVerify_ok_elim (t d : Token) (secret : String) (now : Nat)
    (h : jwtVerify (.tok t) secret now = .ok d) :
    d = t ∧ t.secret = secret ∧ now < t.exp := by
  have h2 : (if t.secret ≠ secret then VerifyResult.invalid
             else if t.exp ≤ now then VerifyResult.expired
             else VerifyResult.ok t) = .ok d := h
  by_cases c1 : t.secret ≠ secret
  · rw [if_pos c1] at h2
    exact VerifyResult.noConfusion h2
  · rw [if_neg c1] at h2
    by_cases c2 : t.exp ≤ now
    · rw [if_pos c2] at h2
      exact VerifyResult.noConfusion h2
    · rw [if_neg c2] at h2
      cases h2
      exact ⟨rfl, not_not.mp c1, by omega⟩

/-- find? over an append whose first part has no hit. -/
theorem find?_append_none {α : Type _} (p : α → Bool) (l1 l2 : List α)
    (h : l1.find? p = none) : (l1 ++ l2).find? p = l2.find? p := by
  induction l1 with
  | nil => rfl
  | cons a l ih =>
    cases hpa : p a with
    | true =>
      rw [List.find?_cons_of_pos _ hpa] at h
      exact Option.noConfusion h
    | false =>
      rw [List.find?_cons_of_neg _ (by rw [hpa]; exact fun h2 => Bool.noConfusion h2)] at h
      rw [List.cons_append,
        List.find?_cons_of_neg _ (by rw [hpa]; exact fun h2 => Bool.noConfusion h2)]
      exact ih h

/-- The access and refresh token of one issuance are never equal: only the
access token carries a role claim. -/
theorem accessToken_ne_refreshToken (cfg : Config) (w : UserRec) (n : Nat) :
    (generateAuthTokens cfg w n).1 ≠ (generateAuthTokens cfg w n).2 := by
  intro h
  have h2 := congrArg Token.role h
  exact Option.noConfusion h2

/-- The verification phase of protect never produces the no-token failure. -/
theorem protectVerify_ne_noToken (cfg : Config) (st : Store) (t : Token)
    (now : Nat) : protectVerify cfg st t now ≠ .reject noAccessTokenResp := by
  unfold protectVerify
  cases hjv : jwtVerify (.tok t) cfg.jwtSecret now with
  | ok d =>
    show protectLoad st d ≠ .reject noAccessTokenResp
    unfold protectLoad
    cases hf : findById st d.id with
    | some u =>
      show ProtectResult.next (sanitizedUser u) ≠ .reject noAccessTokenResp
      exact fun h => ProtectResult.noConfusion h
    | none =>
      show ProtectResult.reject invalidAccessResp ≠ .reject noAccessTokenResp
      decide
  | expired =>
    show ProtectResult.reject expiredAccessResp ≠ .reject noAccessTokenResp
    decide
  | invalid =>
    show ProtectResult.reject invalidAccessResp ≠ .reject noAccessTokenResp
    decide

/-- protect only depends on the cookies through their JavaScript ||. -/
theorem protect_jsOr (cfg : Config) (st : Store) (acc legacy : Option CookieVal)
    (now : Nat) :
    protect cfg st acc legacy now = protect cfg st (jsOr acc legacy) none now := by
  unfold protect
  cases hw : jsOr acc legacy with
  | none => rfl
  | some v =>
    cases v with
    | empty => rfl
    | tok t => rfl
    | garbage s => rfl

/-- Truthiness of the JavaScript || of two cookie values. -/
theorem truthy_jsOr (a b : Option CookieVal) :
    truthy (jsOr a b) = (truthy a || truthy b) := by
  unfold jsOr
  cases ha : truthy a with
  | true =>
    rw [if_pos rfl, Bool.true_or]
    exact ha
  | false =>
    rw [if_neg (fun h => Bool.noConfusion h), Bool.false_or]

/-- With a single cookie, protect produces the no-token failure exactly on a
falsy value. -/
theorem protect_single_noToken (cfg : Config) (st : Store) (now : Nat)
    (w : Option CookieVal) :
    protect cfg st w none now = .reject noAccessTokenResp ↔ truthy w = false := by
  cases w with
  | none => exact ⟨fun _ => rfl, fun _ => rfl⟩
  | some v =>
    cases v with
    | empty => exact ⟨fun _ => rfl, fun _ => rfl⟩
    | tok t =>
      constructor
      · intro h
        have hstep : protect cfg st (some (.tok t)) none now = protectVerify cfg st t now := rfl
        rw [hstep] at h
        exact absurd h (protectVerify_ne_noToken cfg st t now)
      · intro h
        exact absurd (show true = false from h) (by decide)
    | garbage s =>
      constructor
      · intro h
        have h2 : ProtectResult.reject invalidAccessResp = .reject noAccessTokenResp := h
        injection h2 with h3
        exact absurd h3 (by decide)
      · intro h
        exact absurd (show true = false from h) (by decide)

/-! Theorems settling the claims. -/

/-- C3: for every login request, the failure response when no user record
matches the email equals, status and body alike, the failure response when a
record matches but the password check fails: both are the single merged
invalid-credentials error. -/
theorem login_enum_safe (cfg : Config) (st1 st2 : Store) (r : LoginReq)
    (u : UserRec) (now : Nat)
    (h1 : findByEmail st1 r.email = none)
    (h2 : findByEmail st2 r.email = some u)
    (h3 : comparePassword r.password u.password = false) :
    (login cfg st1 r now).1 = (login cfg st2 r now).1 ∧
    (login cfg st1 r now).1.status = (login cfg st2 r now).1.status ∧
    (login cfg st1 r now).1.body = (login cfg st2 r now).1.body := by
  have h : (login cfg st1 r now).1 = (login cfg st2 r now).1 := by
    by_cases hv : loginErrors r = []
    · rw [login_notfound cfg st1 r now hv h1, login_found_eq cfg st2 r now u hv h2]
      unfold loginFound
      rw [h3, if_not_false]
    · unfold login
      rw [if_pos hv, if_pos hv]
  exact ⟨h, by rw [h], by rw [h]⟩

/-- C3 witness: a store without the user and a store with the user but a
wrong password produce the same login response. -/
theorem login_enum_safe_witness :
    (login cfgEx [] loginEx 150).1 = (login cfgEx stEx ⟨"alice@example.com", "wrong"⟩ 150).1 :=
  (login_enum_safe cfgEx [] stEx ⟨"alice@example.com", "wrong"⟩ userEx 150
    (by decide) (by decide) (by decide)).1

/-- C5: logout always answers 200 with success and clears the accessToken,
refreshToken and legacy token cookies, whatever the refresh cookie held; a
decode failure during the best-effort cleanup is swallowed (the store is
untouched on a garbage cookie) and never changes the response. -/
theorem logout_always_succeeds (cfg : Config) (st : Store)
    (cookie : Option CookieVal) (now : Nat) (s : String) :
    (logoutRoute cfg st cookie now).1.status = 200 ∧
    (logoutRoute cfg st cookie now).1.body.success = true ∧
    (logoutRoute cfg st cookie now).1.cleared.map ClearCookie.name =
      ["accessToken", "refreshToken", "token"] ∧
    (logoutRoute cfg st (some (.garbage s)) now).2 = st ∧
    (logoutRoute cfg st none now).2 = st :=
  ⟨rfl, rfl, rfl, rfl, rfl⟩

/-- C6: the deactivated-account failure is produced exactly when the email
resolves to a record, the password comparison succeeds, and the record is
inactive; and a record looked up by email whose password comparison fails
always yields the merged invalid-credentials response, deactivated or not. -/
theorem login_deactivated_gate (cfg : Config) (st : Store) (r : LoginReq)
    (now : Nat) (hv : loginErrors r = []) :
    ((login cfg st r now).1 = deactivatedResp ↔
      ∃ u, findByEmail st r.email = some u ∧
        comparePassword r.password u.password = true ∧ u.isActive = false) ∧
    (∀ u, findByEmail st r.email = some u →
      comparePassword r.password u.password = false →
      (login cfg st r now).1 = invalidCredResp) ∧
    deactivatedResp.status = 403 ∧ invalidCredResp.status = 401 := by
  refine ⟨?_, ?_, rfl, rfl⟩
  · cases hfe : findByEmail st r.email with
    | none =>
      rw [login_notfound cfg st r now hv hfe]
      constructor
      · intro h
        exact absurd h invalidCred_ne_deactivated
      · rintro ⟨u, hu, -⟩
        cases hu
    | some u =>
      rw [login_found_eq cfg st r now u hv hfe]
      unfold loginFound
      cases hcp : comparePassword r.password u.password with
      | false =>
        rw [if_not_false]
        constructor
        · intro h
          exact absurd h invalidCred_ne_deactivated
        · rintro ⟨w, hw, hcp2, -⟩
          cases hw
          rw [hcp] at hcp2
          exact Bool.noConfusion hcp2
      | true =>
        rw [if_not_true]
        cases hact : u.isActive with
        | false =>
          rw [if_not_false]
          exact ⟨fun _ => ⟨u, rfl, hcp, hact⟩, fun _ => rfl⟩
        | true =>
          rw [if_not_true]
          constructor
          · intro h
            have h2 := congrArg Response.status h
            simp [loginSuccess, deactivatedResp, Response.json] at h2
          · rintro ⟨w, hw, -, hact2⟩
            cases hw
            rw [hact] at hact2
            exact Bool.noConfusion hact2
  · intro u hu hcp
    rw [login_found_eq cfg st r now u hv hu]
    unfold loginFound
    rw [hcp, if_not_false]

/-- C6 witness: a deactivated example user with the right password is
rejected with the 403 deactivated response, characterized by the theorem. -/
theorem login_deactivated_gate_witness :
    (login cfgEx [{ userEx with isActive := false }] loginEx 150).1 = deactivatedResp :=
  ((login_deactivated_gate cfgEx [{ userEx with isActive := false }] loginEx 150
      (by decide)).1).2
    ⟨{ userEx with isActive := false }, by decide, by decide, by decide⟩

/-- C9: the access token is signed with JWT_SECRET, expires 15 minutes after
issuance and carries the subject id plus the role claim; the refresh token
is signed with REFRESH_TOKEN_SECRET (a different secret as long as the two
configured secrets differ), expires 7 days after issuance and carries the
subject id with no role claim; the two transport cookies carry the matching
15-minute and 7-day maxAge values. -/
theorem token_issuance_params (cfg : Config) (u : UserRec) (now : Nat)
    (hAB : cfg.jwtSecret ≠ cfg.refreshTokenSecret) :
    (generateAuthTokens cfg u now).1.secret = cfg.jwtSecret ∧
    (generateAuthTokens cfg u now).1.exp = now + 15 * 60 ∧
    (generateAuthTokens cfg u now).1.id = u.id ∧
    (generateAuthTokens cfg u now).1.role = some u.role ∧
    (generateAuthTokens cfg u now).2.secret = cfg.refreshTokenSecret ∧
    (generateAuthTokens cfg u now).2.secret ≠ (generateAuthTokens cfg u now).1.secret ∧
    (generateAuthTokens cfg u now).2.exp = now + 7 * 24 * 60 * 60 ∧
    (generateAuthTokens cfg u now).2.id = u.id ∧
    (generateAuthTokens cfg u now).2.role = none ∧
    (getCookieOptions cfg false).maxAgeMs = 15 * 60 * 1000 ∧
    (getCookieOptions cfg true).maxAgeMs = 7 * 24 * 60 * 60 * 1000 ∧
    (setTokenCookies cfg (generateAuthTokens cfg u now).1 (generateAuthTokens cfg u now).2).1 =
      [⟨"accessToken", .tok (generateAuthTokens cfg u now).1, getCookieOptions cfg false⟩,
       ⟨"refreshToken", .tok (generateAuthTokens cfg u now).2, getCookieOptions cfg true⟩] :=
  ⟨rfl, rfl, rfl, rfl, rfl, fun h => hAB h.symm, rfl, rfl, rfl, rfl, rfl, rfl⟩

/-- C9 witness: the theorem instantiated at the example configuration, whose
two secrets differ. -/
theorem token_issuance_params_witness :
    (generateAuthTokens cfgEx userEx 0).1.secret = cfgEx.jwtSecret ∧
    (generateAuthTokens cfgEx userEx 0).1.exp = 0 + 15 * 60 ∧
    (generateAuthTokens cfgEx userEx 0).1.id = userEx.id ∧
    (generateAuthTokens cfgEx userEx 0).1.role = some userEx.role ∧
    (generateAuthTokens cfgEx userEx 0).2.secret = cfgEx.refreshTokenSecret ∧
    (generateAuthTokens cfgEx userEx 0).2.secret ≠ (generateAuthTokens cfgEx userEx 0).1.secret ∧
    (generateAuthTokens cfgEx userEx 0).2.exp = 0 + 7 * 24 * 60 * 60 ∧
    (generateAuthTokens cfgEx userEx 0).2.id = userEx.id ∧
    (generateAuthTokens cfgEx userEx 0).2.role = none ∧
    (getCookieOptions cfgEx false).maxAgeMs = 15 * 60 * 1000 ∧
    (getCookieOptions cfgEx true).maxAgeMs = 7 * 24 * 60 * 60 * 1000 ∧
    (setTokenCookies cfgEx (generateAuthTokens cfgEx userEx 0).1 (generateAuthTokens cfgEx userEx 0).2).1 =
      [⟨"accessToken", .tok (generateAuthTokens cfgEx userEx 0).1, getCookieOptions cfgEx false⟩,
       ⟨"refreshToken", .tok (generateAuthTokens cfgEx userEx 0).2, getCookieOptions cfgEx true⟩] :=
  token_issuance_params cfgEx userEx 0 (by decide)

/-- C4: under protect, a correctly signed access token whose expiry has
elapsed yields the expired failure (shouldRefresh true, shouldLogout false,
so refresh, never re-authenticate); a wrong signature or a malformed token
yields the invalid failure (shouldRefresh false, shouldLogout true, so
re-authenticate, never refresh); and a valid unexpired token whose subject
no longer resolves to a record yields exactly the same invalid failure. -/
theorem protect_signals (cfg : Config) (st : Store) (legacy : Option CookieVal)
    (t : Token) (s : String) (now : Nat) :
    (t.secret = cfg.jwtSecret → t.exp ≤ now →
      protect cfg st (some (.tok t)) legacy now = .reject expiredAccessResp) ∧
    (t.secret ≠ cfg.jwtSecret →
      protect cfg st (some (.tok t)) legacy now = .reject invalidAccessResp) ∧
    (protect cfg st (some (.garbage s)) legacy now = .reject invalidAccessResp) ∧
    (t.secret = cfg.jwtSecret → now < t.exp → findById st t.id = none →
      protect cfg st (some (.tok t)) legacy now = .reject invalidAccessResp) ∧
    expiredAccessResp.body.shouldRefresh = some true ∧
    expiredAccessResp.body.shouldLogout = some false ∧
    invalidAccessResp.body.shouldRefresh = some false ∧
    invalidAccessResp.body.shouldLogout = some true := by
  refine ⟨?_, ?_, rfl, ?_, rfl, rfl, rfl, rfl⟩
  · intro hsec hexp
    show protectVerify cfg st t now = .reject expiredAccessResp
    unfold protectVerify
    rw [jwtVerify_expired t cfg.jwtSecret now hsec hexp]
  · intro hsec
    show protectVerify cfg st t now = .reject invalidAccessResp
    unfold protectVerify
    rw [jwtVerify_badsig t cfg.jwtSecret now hsec]
  · intro hsec hexp hfind
    show protectVerify cfg st t now = .reject invalidAccessResp
    unfold protectVerify
    rw [jwtVerify_ok t cfg.jwtSecret now hsec hexp]
    show protectLoad st t = .reject invalidAccessResp
    unfold protectLoad
    rw [hfind]

/-- C4 witness: the example access token presented at its expiry instant is
rejected with the expired failure. -/
theorem protect_signals_witness :
    protect cfgEx stEx (some (.tok accEx)) none 1000 = .reject expiredAccessResp :=
  (protect_signals cfgEx stEx none accEx "junk" 1000).1 rfl (by decide)

/-- C1: a refresh answers 200 only when the presented token is exactly the
stored refresh token of the user with the decoded id; a correctly signed,
unexpired token that no longer matches the stored value is rejected with the
invalid-or-expired refresh failure; and on an exact match the stored value
is overwritten with the newly issued refresh token. -/
theorem refresh_rotation_exact_match (cfg : Config) (st : Store)
    (cookie : Option CookieVal) (t : Token) (u : UserRec) (now : Nat) :
    ((refreshRoute cfg st cookie now).1.status = 200 →
      ∃ t1 u1, cookie = some (.tok t1) ∧
        findByIdAndToken st t1.id (.tok t1) = some u1 ∧
        u1.refreshToken = some (.tok t1)) ∧
    (t.secret = cfg.refreshTokenSecret → now < t.exp →
      findByIdAndToken st t.id (.tok t) = none →
      refreshRoute cfg st (some (.tok t)) now = (invalidRefreshResp, st)) ∧
    (t.secret = cfg.refreshTokenSecret → now < t.exp →
      findByIdAndToken st t.id (.tok t) = some u →
      refreshRoute cfg st (some (.tok t)) now = refreshSuccess cfg st u now ∧
      (refreshSuccess cfg st u now).2 =
        updateUser st u.id (fun _ =>
          { u with refreshToken := some (.tok (generateAuthTokens cfg u now).2) }) ∧
      (refreshSuccess cfg st u now).1.body.accessToken =
        some (generateAuthTokens cfg u now).1 ∧
      (refreshSuccess cfg st u now).1.status = 200) := by
  refine ⟨?_, ?_, ?_⟩
  · intro h200
    cases cookie with
    | none =>
      have h2 : noRefreshTokenResp.status = 200 := h200
      exact absurd h2 (by decide)
    | some v =>
      cases v with
      | empty =>
        have h2 : noRefreshTokenResp.status = 200 := h200
        exact absurd h2 (by decide)
      | garbage s =>
        have h2 : expiredRefreshResp.status = 200 := h200
        exact absurd h2 (by decide)
      | tok t1 =>
        have h1 : (refreshVerified cfg st t1 now).1.status = 200 := h200
        cases hjv : jwtVerify (.tok t1) cfg.refreshTokenSecret now with
        | ok d =>
          obtain ⟨hd, hsec, hexp⟩ := jwtVerify_ok_elim t1 d cfg.refreshTokenSecret now hjv
          rw [hd] at hjv
          have hstep : refreshVerified cfg st t1 now = refreshDecoded cfg st t1 t1 now := by
            unfold refreshVerified
            rw [hjv]
          rw [hstep] at h1
          cases hfind : findByIdAndToken st t1.id (.tok t1) with
          | none =>
            have hstep2 : refreshDecoded cfg st t1 t1 now = (invalidRefreshResp, st) := by
              unfold refreshDecoded
              rw [hfind]
            rw [hstep2] at h1
            have h2 : invalidRefreshResp.status = 200 := h1
            exact absurd h2 (by decide)
          | some u1 =>
            refine ⟨t1, u1, rfl, hfind, ?_⟩
            have hfind2 : st.find? (fun w => w.id == t1.id && w.refreshToken == some (.tok t1)) = some u1 := hfind
            have hp := List.find?_some hfind2
            simp only [Bool.and_eq_true, beq_iff_eq] at hp
            exact hp.2
        | expired =>
          have hstep : refreshVerified cfg st t1 now = (expiredRefreshResp, st) := by
            unfold refreshVerified
            rw [hjv]
          rw [hstep] at h1
          have h2 : expiredRefreshResp.status = 200 := h1
          exact absurd h2 (by decide)
        | invalid =>
          have hstep : refreshVerified cfg st t1 now = (expiredRefreshResp, st) := by
            unfold refreshVerified
            rw [hjv]
          rw [hstep] at h1
          have h2 : expiredRefreshResp.status = 200 := h1
          exact absurd h2 (by decide)
  · intro hsec hexp hfind
    show refreshVerified cfg st t now = (invalidRefreshResp, st)
    unfold refreshVerified
    rw [jwtVerify_ok t cfg.refreshTokenSecret now hsec hexp]
    show refreshDecoded cfg st t t now = (invalidRefreshResp, st)
    unfold refreshDecoded
    rw [hfind]
  · intro hsec hexp hfind
    refine ⟨?_, rfl, rfl, rfl⟩
    show refreshVerified cfg st t now = refreshSuccess cfg st u now
    unfold refreshVerified
    rw [jwtVerify_ok t cfg.refreshTokenSecret now hsec hexp]
    show refreshDecoded cfg st t t now = refreshSuccess cfg st u now
    unfold refreshDecoded
    rw [hfind]

/-- C1 witness: presenting the stored refresh token of the example user
rotates it: 200, new access token in the body, new refresh token stored. -/
theorem refresh_rotation_exact_match_witness :
    refreshRoute cfgEx stEx (some (.tok storedRT)) 200 = refreshSuccess cfgEx stEx userEx 200 ∧
    (refreshSuccess cfgEx stEx userEx 200).2 =
      updateUser stEx userEx.id (fun _ =>
        { userEx with refreshToken := some (.tok (generateAuthTokens cfgEx userEx 200).2) }) ∧
    (refreshSuccess cfgEx stEx userEx 200).1.body.accessToken =
      some (generateAuthTokens cfgEx userEx 200).1 ∧
    (refreshSuccess cfgEx stEx userEx 200).1.status = 200 :=
  (refresh_rotation_exact_match cfgEx stEx none storedRT userEx 200).2.2
    rfl (by decide) (by decide)

/-- C2 counterexample: a refresh token with a wrong signature, and likewise
the stored token presented after its expiry has elapsed, are answered with
status 401, not 403 as claimed; only the stale-token mismatch path answers
403. -/
theorem refresh_badsig_401_not_403 :
    (refreshRoute cfgEx stEx (some (.tok badSigRT)) 200).1.status = 401 ∧
    ¬ (refreshRoute cfgEx stEx (some (.tok badSigRT)) 200).1.status = 403 ∧
    (refreshRoute cfgEx stEx (some (.tok storedRT)) (100 + refreshTokenLifeS)).1.status = 401 ∧
    (refreshRoute cfgEx stEx (some (.tok staleRT)) 200).1.status = 403 := by
  decide

/-- C2 amended: success answers 200 with the new access token in the body;
a missing cookie answers 401 no-token; a correctly signed, unexpired token
that no longer matches the stored value answers 403 invalid; a bad signature
or an elapsed expiry is caught and answers 401 invalid-or-expired with the
cookies cleared; every failure carries the shouldLogout signal. -/
theorem refresh_response_contract (cfg : Config) (st : Store) (t : Token)
    (u : UserRec) (now : Nat) :
    (refreshRoute cfg st none now).1 = noRefreshTokenResp ∧
    noRefreshTokenResp.status = 401 ∧
    noRefreshTokenResp.body.shouldLogout = some true ∧
    (t.secret = cfg.refreshTokenSecret → now < t.exp →
      findByIdAndToken st t.id (.tok t) = none →
      (refreshRoute cfg st (some (.tok t)) now).1 = invalidRefreshResp) ∧
    invalidRefreshResp.status = 403 ∧
    invalidRefreshResp.body.shouldLogout = some true ∧
    (t.secret ≠ cfg.refreshTokenSecret →
      (refreshRoute cfg st (some (.tok t)) now).1 = expiredRefreshResp) ∧
    (t.secret = cfg.refreshTokenSecret → t.exp ≤ now →
      (refreshRoute cfg st (some (.tok t)) now).1 = expiredRefreshResp) ∧
    expiredRefreshResp.status = 401 ∧
    expiredRefreshResp.body.shouldLogout = some true ∧
    expiredRefreshResp.cleared.map ClearCookie.name =
      ["accessToken", "refreshToken", "token"] ∧
    (t.secret = cfg.refreshTokenSecret → now < t.exp →
      findByIdAndToken st t.id (.tok t) = some u →
      (refreshRoute cfg st (some (.tok t)) now).1.status = 200 ∧
      (refreshRoute cfg st (some (.tok t)) now).1.body =
        { ResBody.base true none with
          accessToken := some (generateAuthTokens cfg u now).1 }) := by
  refine ⟨rfl, rfl, rfl, ?_, rfl, rfl, ?_, ?_, rfl, rfl, rfl, ?_⟩
  · intro hsec hexp hfind
    have h : refreshRoute cfg st (some (.tok t)) now = (invalidRefreshResp, st) := by
      show refreshVerified cfg st t now = (invalidRefreshResp, st)
      unfold refreshVerified
      rw [jwtVerify_ok t cfg.refreshTokenSecret now hsec hexp]
      show refreshDecoded cfg st t t now = (invalidRefreshResp, st)
      unfold refreshDecoded
      rw [hfind]
    rw [h]
  · intro hsec
    have h : refreshRoute cfg st (some (.tok t)) now = (expiredRefreshResp, st) := by
      show refreshVerified cfg st t now = (expiredRefreshResp, st)
      unfold refreshVerified
      rw [jwtVerify_badsig t cfg.refreshTokenSecret now hsec]
    rw [h]
  · intro hsec hexp
    have h : refreshRoute cfg st (some (.tok t)) now = (expiredRefreshResp, st) := by
      show refreshVerified cfg st t now = (expiredRefreshResp, st)
      unfold refreshVerified
      rw [jwtVerify_expired t cfg.refreshTokenSecret now hsec hexp]
    rw [h]
  · intro hsec hexp hfind
    have h : refreshRoute cfg st (some (.tok t)) now = refreshSuccess cfg st u now := by
      show refreshVerified cfg st t now = refreshSuccess cfg st u now
      unfold refreshVerified
      rw [jwtVerify_ok t cfg.refreshTokenSecret now hsec hexp]
      show refreshDecoded cfg st t t now = refreshSuccess cfg st u now
      unfold refreshDecoded
      rw [hfind]
    rw [h]
    exact ⟨rfl, rfl⟩

/-- C2 amended witness: the stale example token is answered 403 and the
matching stored token 200 with the fresh access token in the body. -/
theorem refresh_response_contract_witness :
    (refreshRoute cfgEx stEx (some (.tok staleRT)) 200).1 = invalidRefreshResp ∧
    (refreshRoute cfgEx stEx (some (.tok storedRT)) 200).1.status = 200 ∧
    (refreshRoute cfgEx stEx (some (.tok storedRT)) 200).1.body =
      { ResBody.base true none with
        accessToken := some (generateAuthTokens cfgEx userEx 200).1 } :=
  ⟨(refresh_response_contract cfgEx stEx staleRT userEx 200).2.2.2.1
      rfl (by decide) (by decide),
   (refresh_response_contract cfgEx stEx storedRT userEx 200).2.2.2.2.2.2.2.2.2.2.2
      rfl (by decide) (by decide)⟩

/-- C7: when a registration succeeded, a second registration with the same
email up to the schema normalization (trim and lowercase) is rejected with
the duplicate-email failure, leaves the store unchanged, computes no
password hash, and exactly one record with that email is stored. -/
theorem register_duplicate_email (cfg : Config) (st : Store)
    (r1 r2 : RegisterReq) (id1 salt1 now1 id2 salt2 now2 : Nat)
    (hemail : normEmail r1.email = normEmail r2.email)
    (hv2 : registerErrors r2 = [])
    (h1 : (register cfg st r1 id1 salt1 now1).resp.status = 201) :
    (register cfg (register cfg st r1 id1 salt1 now1).store r2 id2 salt2 now2).resp = dupEmailResp ∧
    (register cfg (register cfg st r1 id1 salt1 now1).store r2 id2 salt2 now2).store =
      (register cfg st r1 id1 salt1 now1).store ∧
    (register cfg (register cfg st r1 id1 salt1 now1).store r2 id2 salt2 now2).hashedPassword = false ∧
    ((register cfg st r1 id1 salt1 now1).store.filter
      (fun w => w.email == normEmail r2.email)).length = 1 ∧
    (st.filter (fun w => w.email == normEmail r2.email)).length = 0 := by
  have hv1 : registerErrors r1 = [] := by
    by_contra hne
    unfold register at h1
    rw [if_pos hne] at h1
    have h2 : (400 : Nat) = 201 := h1
    exact absurd h2 (by decide)
  have hfe1 : findByEmail st r1.email = none := by
    cases hfe : findByEmail st r1.email with
    | none => rfl
    | some w =>
      unfold register at h1
      rw [if_neg (by simp [hv1]), hfe] at h1
      have h2 : (400 : Nat) = 201 := h1
      exact absurd h2 (by decide)
  have hfe1b : findByEmail st r2.email = none := by
    unfold findByEmail at hfe1 ⊢
    rw [← hemail]
    exact hfe1
  have hfe1c : st.find? (fun w => w.email == normEmail r2.email) = none := hfe1b
  have hreg1 : register cfg st r1 id1 salt1 now1 = registerSuccess cfg st r1 id1 salt1 now1 := by
    unfold register
    rw [if_neg (by simp [hv1]), hfe1]
  have hstore : (registerSuccess cfg st r1 id1 salt1 now1).store =
      st ++ [registeredUser cfg r1 id1 salt1 now1] := rfl
  have hpu : ((registeredUser cfg r1 id1 salt1 now1).email == normEmail r2.email) = true := by
    show (normEmail r1.email == normEmail r2.email) = true
    rw [hemail]
    exact beq_self_eq_true _
  have hfind2 : findByEmail (st ++ [registeredUser cfg r1 id1 salt1 now1]) r2.email =
      some (registeredUser cfg r1 id1 salt1 now1) := by
    unfold findByEmail
    rw [find?_append_none _ _ _ hfe1c]
    simp only [List.find?_cons]
    rw [hpu]
  have hreg2 : register cfg (st ++ [registeredUser cfg r1 id1 salt1 now1]) r2 id2 salt2 now2 =
      { resp := dupEmailResp, store := st ++ [registeredUser cfg r1 id1 salt1 now1],
        hashedPassword := false } := by
    unfold register
    rw [if_neg (by simp [hv2]), hfind2]
  have hfil0 : st.filter (fun w => w.email == normEmail r2.email) = [] := by
    rw [List.filter_eq_nil_iff]
    intro a ha
    exact List.find?_eq_none.mp hfe1c a ha
  rw [hreg1, hstore, hreg2]
  refine ⟨rfl, rfl, rfl, ?_, ?_⟩
  · rw [List.filter_append, hfil0, List.nil_append, List.filter_cons, if_pos hpu]
    rfl
  · rw [hfil0]
    rfl

/-- C7 witness: registering the example request twice, the second with the
email differing only in case and surrounding whitespace, hits every
conclusion of the theorem. -/
theorem register_duplicate_email_witness :
    (register cfgEx (register cfgEx [] regEx 1 0 100).store regEx2 2 0 200).resp = dupEmailResp ∧
    (register cfgEx (register cfgEx [] regEx 1 0 100).store regEx2 2 0 200).store =
      (register cfgEx [] regEx 1 0 100).store ∧
    (register cfgEx (register cfgEx [] regEx 1 0 100).store regEx2 2 0 200).hashedPassword = false ∧
    ((register cfgEx [] regEx 1 0 100).store.filter
      (fun w => w.email == normEmail regEx2.email)).length = 1 ∧
    (([] : Store).filter (fun w => w.email == normEmail regEx2.email)).length = 0 :=
  register_duplicate_email cfgEx [] regEx regEx2 1 0 100 2 0 200
    (by decide) (by decide) (by decide)

/-- C8: the sanitized user projection is unchanged by any change of the
credential hash or stored refresh token (so it carries neither), and the
bodies of a successful registration and a successful login consist of
exactly the success flag, the message, that projection and the access
token, while the refresh token, which differs from the access token, is
transported only in the refreshToken cookie. -/
theorem register_login_no_secret_leak (cfg : Config) (st : Store)
    (r : RegisterReq) (lr : LoginReq) (i salt now now2 : Nat) (u : UserRec) :
    (∀ (w : UserRec) (pw : PwHash) (rt : Option CookieVal),
      sanitizedUser { w with password := pw, refreshToken := rt } = sanitizedUser w) ∧
    (registerErrors r = [] → findByEmail st r.email = none →
      (register cfg st r i salt now).resp.body =
        { ResBody.base true
            (some "Registration successful. Please check your email to verify your account.") with
          user := some (sanitizedUser (registeredUser cfg r i salt now)),
          accessToken := some (generateAuthTokens cfg (newUserRec r i salt) now).1 } ∧
      (register cfg st r i salt now).resp.setCookies =
        [⟨"accessToken", .tok (generateAuthTokens cfg (newUserRec r i salt) now).1,
          getCookieOptions cfg false⟩,
         ⟨"refreshToken", .tok (generateAuthTokens cfg (newUserRec r i salt) now).2,
          getCookieOptions cfg true⟩] ∧
      (generateAuthTokens cfg (newUserRec r i salt) now).1 ≠
        (generateAuthTokens cfg (newUserRec r i salt) now).2) ∧
    (loginErrors lr = [] → findByEmail st lr.email = some u →
      comparePassword lr.password u.password = true → u.isActive = true →
      (login cfg st lr now2).1.body =
        { ResBody.base true (some "Login successful") with
          user := some (sanitizedUser
            { u with
                lastLogin := some now2,
                refreshToken := some (.tok (generateAuthTokens cfg
                  { u with lastLogin := some now2 } now2).2) }),
          accessToken := some (generateAuthTokens cfg { u with lastLogin := some now2 } now2).1 } ∧
      (login cfg st lr now2).1.setCookies =
        [⟨"accessToken", .tok (generateAuthTokens cfg { u with lastLogin := some now2 } now2).1,
          getCookieOptions cfg false⟩,
         ⟨"refreshToken", .tok (generateAuthTokens cfg { u with lastLogin := some now2 } now2).2,
          getCookieOptions cfg true⟩] ∧
      (generateAuthTokens cfg { u with lastLogin := some now2 } now2).1 ≠
        (generateAuthTokens cfg { u with lastLogin := some now2 } now2).2) := by
  refine ⟨fun w pw rt => rfl, ?_, ?_⟩
  · intro hv hfe
    have hreg : register cfg st r i salt now = registerSuccess cfg st r i salt now := by
      unfold register
      rw [if_neg (by simp [hv]), hfe]
    rw [hreg]
    exact ⟨rfl, rfl, accessToken_ne_refreshToken cfg (newUserRec r i salt) now⟩
  · intro hv hfe hcp hact
    have hlg : login cfg st lr now2 = loginSuccess cfg st u now2 := by
      rw [login_found_eq cfg st lr now2 u hv hfe]
      unfold loginFound
      rw [hcp, if_not_true, hact, if_not_true]
    rw [hlg]
    exact ⟨rfl, rfl, accessToken_ne_refreshToken cfg { u with lastLogin := some now2 } now2⟩

/-- C8 witness: the example registration response carries exactly the
sanitized user and the access token in its body. -/
theorem register_login_no_secret_leak_witness :
    (register cfgEx [] regEx 1 0 100).resp.body =
      { ResBody.base true
          (some "Registration successful. Please check your email to verify your account.") with
        user := some (sanitizedUser (registeredUser cfgEx regEx 1 0 100)),
        accessToken := some (generateAuthTokens cfgEx (newUserRec regEx 1 0) 100).1 } ∧
    (register cfgEx [] regEx 1 0 100).resp.setCookies =
      [⟨"accessToken", .tok (generateAuthTokens cfgEx (newUserRec regEx 1 0) 100).1,
        getCookieOptions cfgEx false⟩,
       ⟨"refreshToken", .tok (generateAuthTokens cfgEx (newUserRec regEx 1 0) 100).2,
        getCookieOptions cfgEx true⟩] ∧
    (generateAuthTokens cfgEx (newUserRec regEx 1 0) 100).1 ≠
      (generateAuthTokens cfgEx (newUserRec regEx 1 0) 100).2 :=
  (register_login_no_secret_leak cfgEx [] regEx loginEx 1 0 100 0 userEx).2.1
    (by decide) rfl

/-- C10 counterexample: the legacy token cookie present with the empty
string as value is falsy in JavaScript, so protect answers the no-token
failure although the cookie is present, against the claim that the legacy
value is then used and that the no-token failure needs both cookies
absent. -/
theorem protect_empty_legacy_no_token :
    protect cfgEx stEx none (some CookieVal.empty) 200 = .reject noAccessTokenResp ∧
    some CookieVal.empty ≠ (none : Option CookieVal) :=
  ⟨rfl, by decide⟩

/-- C10 amended: when the accessToken cookie is absent or holds the empty
string, and the legacy token cookie holds a non-empty value, protect treats
the legacy value exactly as it would an accessToken cookie value
(verification and identity loading included); the no-token failure is
produced exactly when both cookies are absent or hold the empty string. -/
theorem protect_legacy_fallback (cfg : Config) (st : Store) (now : Nat) :
    (∀ (acc : Option CookieVal) (v : CookieVal),
      (acc = none ∨ acc = some .empty) → v ≠ .empty →
      protect cfg st acc (some v) now = protect cfg st (some v) none now) ∧
    (∀ acc legacy : Option CookieVal,
      protect cfg st acc legacy now = .reject noAccessTokenResp ↔
        (truthy acc = false ∧ truthy legacy = false)) := by
  constructor
  · intro acc v hacc hv
    cases hacc with
    | inl h =>
      subst h
      cases v with
      | empty => exact absurd rfl hv
      | tok t => rfl
      | garbage s => rfl
    | inr h =>
      subst h
      cases v with
      | empty => exact absurd rfl hv
      | tok t => rfl
      | garbage s => rfl
  · intro acc legacy
    rw [protect_jsOr, protect_single_noToken, truthy_jsOr]
    cases truthy acc <;> cases truthy legacy <;> decide

/-- C10 amended witness: the example access token presented in the legacy
cookie is handled exactly as in the accessToken cookie, both with the
accessToken cookie absent and with it present holding the empty string. -/
theorem protect_legacy_fallback_witness :
    protect cfgEx stEx none (some (.tok accEx)) 200 =
      protect cfgEx stEx (some (.tok accEx)) none 200 ∧
    protect cfgEx stEx (some CookieVal.empty) (some (.tok accEx)) 200 =
      protect cfgEx stEx (some (.tok accEx)) none 200 :=
  ⟨(protect_legacy_fallback cfgEx stEx 200).1 none (.tok accEx) (Or.inl rfl) (by decide),
   (protect_legacy_fallback cfgEx stEx 200).1 (some CookieVal.empty) (.tok accEx)
     (Or.inr rfl) (by decide)⟩

end AniGhar
